import Mathlib

/-!
Shallow embedding of the schedule-to-calendar conversion core of `src/app.py`.

Calendar dates are modelled as integers counting days from a fixed epoch that
falls on a Monday; adding `timedelta(days = k)` is `+ k` and
`timedelta(weeks = k)` is `+ 7 * k`, and `date.isoweekday` is periodic with
period 7, Monday ↦ 1, …, Sunday ↦ 7.  Missing (NaN) cells of the pandas frame
are modelled as `none : Option String`.
-/

namespace App

/-- Model of Python `date.isoweekday`: for a date `d` days after the epoch
Monday, the ISO weekday is `d % 7 + 1` (Euclidean remainder), in `1..7`. -/
def isoweekday (d : Int) : Int := d % 7 + 1

/-- Embeds `app.py` line 73: `start_date.isoweekday() + 1 if
start_date.isoweekday() != 7 else 8` (Monday is 2, Sunday is 8). -/
def weekday_code (d : Int) : Int :=
  if isoweekday d ≠ 7 then isoweekday d + 1 else 8

/-- Embeds `app.py` lines 74-76: `days_difference = day_of_week -
start_day_of_week; if days_difference < 0: days_difference += 7`. -/
def day_offset (start_date day_of_week : Int) : Int :=
  let days_difference := day_of_week - weekday_code start_date
  if days_difference < 0 then days_difference + 7 else days_difference

/-- Embeds `get_dates_for_pattern` (`app.py` lines 47-90): adjust the start
date forward to the requested weekday, then for each active week add
`week_num - firstweek` weeks, where `firstweek` is the first list element. -/
def get_dates_for_pattern (start_date day_of_week : Int)
    (active_weeks : List Int) : List Int :=
  let adjusted_start_date := start_date + day_offset start_date day_of_week
  match active_weeks with
  | [] => []
  | firstweek :: _ =>
      active_weeks.map (fun week_num =>
        adjusted_start_date + 7 * (week_num - firstweek))

/-- Inclusive code-point ranges of every character accepted by Python's
`str.isdigit` (CPython Unicode 14.0.0 database: the characters of numeric
type Decimal or Digit, i.e. category Nd plus superscripts, circled digits,
and the like). -/
def pyDigitRanges : List (Nat × Nat) :=
  [(48, 57), (178, 179), (185, 185), (1632, 1641), (1776, 1785), (1984, 1993),
   (2406, 2415), (2534, 2543), (2662, 2671), (2790, 2799), (2918, 2927), (3046, 3055),
   (3174, 3183), (3302, 3311), (3430, 3439), (3558, 3567), (3664, 3673), (3792, 3801),
   (3872, 3881), (4160, 4169), (4240, 4249), (4969, 4977), (6112, 6121), (6160, 6169),
   (6470, 6479), (6608, 6618), (6784, 6793), (6800, 6809), (6992, 7001), (7088, 7097),
   (7232, 7241), (7248, 7257), (8304, 8304), (8308, 8313), (8320, 8329), (9312, 9320),
   (9332, 9340), (9352, 9360), (9450, 9450), (9461, 9469), (9471, 9471), (10102, 10110),
   (10112, 10120), (10122, 10130), (42528, 42537), (43216, 43225), (43264, 43273), (43472, 43481),
   (43504, 43513), (43600, 43609), (44016, 44025), (65296, 65305), (66720, 66729), (68160, 68163),
   (68912, 68921), (69216, 69224), (69714, 69722), (69734, 69743), (69872, 69881), (69942, 69951),
   (70096, 70105), (70384, 70393), (70736, 70745), (70864, 70873), (71248, 71257), (71360, 71369),
   (71472, 71481), (71904, 71913), (72016, 72025), (72784, 72793), (73040, 73049), (73120, 73129),
   (92768, 92777), (92864, 92873), (93008, 93017), (120782, 120831), (123200, 123209), (123632, 123641),
   (125264, 125273), (127232, 127242), (130032, 130041)]

/-- Model of Python `char.isdigit()` (`app.py` line 42): Unicode-aware, true
exactly on the code points of `pyDigitRanges`; note this is strictly wider
than the ASCII decimal digits 0-9. -/
def pyIsDigit (c : Char) : Bool :=
  pyDigitRanges.any (fun r => r.1 ≤ c.toNat && c.toNat ≤ r.2)

/-- Helper for `parse_week_pattern`: the loop `for i, char in
enumerate(week_pattern)` carried out from position `i`. -/
def parse_week_pattern_aux (i : Nat) : List Char → List Int
  | [] => []
  | c :: cs =>
      if pyIsDigit c then ((i : Int) + 1) :: parse_week_pattern_aux (i + 1) cs
      else parse_week_pattern_aux (i + 1) cs

/-- Embeds `parse_week_pattern` (`app.py` lines 38-44): collect `i + 1` for
every position `i` whose character is a digit. -/
def parse_week_pattern (week_pattern : List Char) : List Int :=
  parse_week_pattern_aux 0 week_pattern

/-- Embeds `lecture_array` (`app.py` lines 93-111). -/
def lecture_array : List (String × String) :=
  [("07:00", "07:45"),
   ("07:45", "08:30"),
   ("08:30", "09:15"),
   ("09:40", "10:25"),
   ("10:25", "11:10"),
   ("11:10", "11:55"),
   ("12:30", "13:15"),
   ("13:15", "14:00"),
   ("14:00", "14:45"),
   ("15:10", "15:55"),
   ("15:55", "16:40"),
   ("16:40", "17:25"),
   ("18:00", "18:45"),
   ("18:45", "19:30"),
   ("19:30", "20:15"),
   ("20:15", "21:00"),
   ("21:00", "21:45")]

/-- Embeds `practice_array` (`app.py` lines 115-133). -/
def practice_array : List (String × String) :=
  [("07:00", "07:45"),
   ("07:45", "08:30"),
   ("08:30", "09:15"),
   ("09:15", "10:00"),
   ("10:00", "10:45"),
   ("10:45", "11:30"),
   ("12:30", "13:15"),
   ("13:15", "14:00"),
   ("14:00", "14:45"),
   ("14:45", "15:30"),
   ("15:30", "16:15"),
   ("16:15", "17:00"),
   ("18:00", "18:45"),
   ("18:45", "19:30"),
   ("19:30", "20:15"),
   ("20:15", "21:00"),
   ("21:00", "21:45")]

/-- Python list subscription `l[i]`: a non-negative index counts from the
front, a negative index `i` means `l[len(l) + i]`, and anything still out of
range raises `IndexError` (modelled as `none`). -/
def pyGet {α : Type} (l : List α) (i : Int) : Option α :=
  let j := if i < 0 then (l.length : Int) + i else i
  if 0 ≤ j then l.get? j.toNat else none

/-- Converts an `"HH:MM"` wall-clock string to minutes since midnight. -/
def timeToMin (s : String) : Nat :=
  match s.data with
  | [h1, h2, _, m1, m2] =>
      ((h1.toNat - 48) * 10 + (h2.toNat - 48)) * 60 +
        ((m1.toNat - 48) * 10 + (m2.toNat - 48))
  | _ => 0

/-- A pandas cell of an object (string) column: `none` is NaN (missing). -/
abbrev Cell := Option String

/-- Element-wise pandas string concatenation (`+` on object columns): NaN in
either operand makes the result NaN. -/
def pdConcat (a b : Cell) : Cell :=
  match a, b with
  | some x, some y => some (x ++ y)
  | _, _ => none

/-- Pandas `.astype(str)` on a string cell: `str(nan)` is the literal
three-letter string, every actual string is kept as is. -/
def astype_str (a : Cell) : String :=
  match a with
  | some s => s
  | none => "nan"

/-- A cell as it is written by `to_csv` (default `na_rep`): NaN renders as the
empty string. -/
def renderCell (a : Cell) : String := a.getD ""

/-- List-of-characters substring search, the semantics of
`Series.str.contains` for a pattern without regex metacharacters. -/
def containsSub (needle : List Char) : List Char → Bool
  | [] => needle.isEmpty
  | c :: cs => needle.isPrefixOf (c :: cs) || containsSub needle cs

/-- Marker substring for practicum/lab course titles. -/
def marker1 : List Char := ("Thực hành").data

/-- Marker substring for IT-application lab course titles. -/
def marker2 : List Char := ("Ứng dụng tin học").data

/-- Embeds `Series.str.contains(pat, na=False)` on a title cell: a missing
title is a non-match. -/
def cellContains (t : Cell) (needle : List Char) : Bool :=
  match t with
  | none => false
  | some s => containsSub needle s.data

/-- Embeds `app.py` lines 226-228: `IsPractice` starts at 0 and the two
`loc[...str.contains(...)] = 1` assignments overwrite it in order. -/
def isPractice (t : Cell) : Int :=
  let v0 : Int := 0
  let v1 := if cellContains t marker1 then 1 else v0
  let v2 := if cellContains t marker2 then 1 else v1
  v2

/-- One input row of the schedule frame (`my_list_2`), with the anchor date
already parsed and the week pattern kept as its character string. -/
structure ScheduleRecord where
  stt : Cell
  maLop : Cell
  nhom : Cell
  lop : Cell
  tenMonHoc : Cell
  siSo : Cell
  thu : Int
  tuTiet : Int
  denTiet : Int
  tietHoc : Cell
  tenPhong : Cell
  tuanHoc : List Char
  ngayBatDau : Int
  deriving DecidableEq

/-- One expanded row of `my_schedule` (`app.py` lines 198-223): the record's
fields plus one concrete class date. -/
structure Occurrence where
  stt : Cell
  maLop : Cell
  nhom : Cell
  lop : Cell
  tenMonHoc : Cell
  siSo : Cell
  thu : Int
  tuTiet : Int
  denTiet : Int
  tietHoc : Cell
  tenPhong : Cell
  ngay : Int
  deriving DecidableEq

/-- Embeds the expansion loop (`app.py` lines 198-223): one new row per entry
of `class_dates`, copying every descriptive field. -/
def expandRecord (r : ScheduleRecord) : List Occurrence :=
  (get_dates_for_pattern r.ngayBatDau r.thu (parse_week_pattern r.tuanHoc)).map
    (fun d =>
      { stt := r.stt, maLop := r.maLop, nhom := r.nhom, lop := r.lop
        tenMonHoc := r.tenMonHoc, siSo := r.siSo, thu := r.thu
        tuTiet := r.tuTiet, denTiet := r.denTiet, tietHoc := r.tietHoc
        tenPhong := r.tenPhong, ngay := d })

/-- Embeds `app.py` line 232: `practice_array[row['Từ tiết'] - 1][0] if
row['IsPractice'] == 1 else lecture_array[row['Từ tiết'] - 1][0]`, as the
Python subscription that may raise `IndexError`. -/
def startLookup (o : Occurrence) : Option (String × String) :=
  pyGet (if isPractice o.tenMonHoc = 1 then practice_array else lecture_array)
    (o.tuTiet - 1)

/-- Embeds `app.py` line 233, the `Đến tiết` lookup. -/
def endLookup (o : Occurrence) : Option (String × String) :=
  pyGet (if isPractice o.tenMonHoc = 1 then practice_array else lecture_array)
    (o.denTiet - 1)

/-- One output row of the `my_google` frame (`app.py` lines 236-250). -/
structure CalendarEvent where
  subject : Cell
  startDate : Int
  startTime : String
  endDate : Int
  endTime : String
  location : Cell
  description : Cell
  deriving DecidableEq

/-- The field assembly of `app.py` lines 236-250 for one occurrence, given
the two timetable lookups already resolved. -/
def mkEvent (o : Occurrence) (st en : String × String) : CalendarEvent :=
  let subject :=
    pdConcat o.tenMonHoc (pdConcat (some (" - "))
      (pdConcat (some (astype_str o.maLop)) (pdConcat (some (" - ")) o.lop)))
  { subject := subject
    startDate := o.ngay
    startTime := st.1
    endDate := o.ngay
    endTime := en.2
    location := o.tenPhong
    description :=
      pdConcat o.tenPhong
        (pdConcat (some ((";\r\nTiết:" ++ toString o.tuTiet) ++
          ("-" ++ toString o.denTiet ++ ";\r\n"))) subject) }

/-- Builds the `my_google` row of one occurrence; `none` when a period lookup
raises `IndexError`. -/
def buildEventRow (o : Occurrence) : Option CalendarEvent :=
  match startLookup o, endLookup o with
  | some st, some en => some (mkEvent o st en)
  | _, _ => none

/-- Builds the rows of every occurrence; any `IndexError` aborts the build. -/
def buildEvents (occs : List Occurrence) : Option (List CalendarEvent) :=
  occs.mapM buildEventRow

/-- Embeds the future-only filter (`app.py` lines 252-259): keep the rows
whose `Start Date` is on or after today. -/
def futureFilter (today : Int) (events : List CalendarEvent) :
    List CalendarEvent :=
  events.filter (fun e => decide (today ≤ e.startDate))

/-- The whole `schedule_data` expansion (`app.py` lines 198-223): every
record's occurrences, in input order. -/
def expandAll (rs : List ScheduleRecord) : List Occurrence :=
  rs.flatMap expandRecord

/-- The frame-level pipeline of `app.py` lines 223-259: when the expansion is
empty, `pd.DataFrame([])` has no columns and the title-column access at line
227 raises `KeyError` (modelled as `none`); otherwise every row is built
(an out-of-range period aborts the build) and the future-only filter runs. -/
def pipelineEvents (today : Int) (rs : List ScheduleRecord) :
    Option (List CalendarEvent) :=
  match expandAll rs with
  | [] => none
  | occs => (occs.mapM buildEventRow).map (futureFilter today)

/-- Minutes between the end of slot `i` and the start of slot `i + 1` of a
timetable (0-based slot indices). -/
def slotGap (arr : List (String × String)) (i : Nat) : Nat :=
  match arr.get? i, arr.get? (i + 1) with
  | some a, some b => timeToMin b.1 - timeToMin a.2
  | _, _ => 0

/-- Example input record whose week pattern has no digit at all. -/
def recNoDigit : ScheduleRecord :=
  { stt := some ("1"), maLop := some ("INT1234"), nhom := some ("1"),
    lop := some ("D23"), tenMonHoc := some ("Giải tích"), siSo := some ("40"),
    thu := 2, tuTiet := 1, denTiet := 3, tietHoc := some ("1-3"),
    tenPhong := some ("A101"), tuanHoc := ("------").data, ngayBatDau := 0 }

/-- Example occurrence of a practicum course. -/
def occThucHanh : Occurrence :=
  { stt := some ("1"), maLop := some ("INT1"), nhom := some ("1"),
    lop := some ("D23"), tenMonHoc := some ("Thực hành CSDL"),
    siSo := some ("40"), thu := 2, tuTiet := 4, denTiet := 5,
    tietHoc := some ("4-5"), tenPhong := some ("B2"), ngay := 0 }

/-- Example occurrence whose course title cell is missing (NaN). -/
def occNoTitle : Occurrence :=
  { stt := some ("1"), maLop := some ("INT1"), nhom := some ("1"),
    lop := some ("D23"), tenMonHoc := none,
    siSo := some ("40"), thu := 2, tuTiet := 4, denTiet := 5,
    tietHoc := some ("4-5"), tenPhong := some ("B2"), ngay := 0 }

/-- Example occurrence whose section-code cell is missing (NaN). -/
def occNoCode : Occurrence :=
  { stt := some ("1"), maLop := none, nhom := some ("1"),
    lop := some ("L"), tenMonHoc := some ("T"),
    siSo := some ("40"), thu := 2, tuTiet := 1, denTiet := 2,
    tietHoc := some ("1-2"), tenPhong := some ("R"), ngay := 0 }

/-- Example calendar event dated on day 0. -/
def evEx : CalendarEvent :=
  { subject := some ("S"), startDate := 0, startTime := ("07:00"),
    endDate := 0, endTime := ("07:45"), location := some ("R"),
    description := some ("D") }

theorem weekday_code_eq (d : Int) : weekday_code d = d % 7 + 2 := by
  have hd0 : 0 ≤ d % 7 := Int.emod_nonneg d (by norm_num)
  have hd7 : d % 7 < 7 := Int.emod_lt_of_pos d (by norm_num)
  simp only [weekday_code, isoweekday]
  split <;> omega

theorem parse_week_pattern_aux_enum (i : Nat) (s : List Char) :
    parse_week_pattern_aux i s
      = ((List.enumFrom i s).filter (fun p => pyIsDigit p.2)).map
          (fun p => (p.1 : Int) + 1) := by
  induction s generalizing i with
  | nil => simp [parse_week_pattern_aux]
  | cons c cs ih =>
      by_cases h : pyIsDigit c <;>
        simp [parse_week_pattern_aux, List.enumFrom, List.filter, h, ih]

theorem parse_week_pattern_aux_lt (i : Nat) (s : List Char) :
    ∀ w ∈ parse_week_pattern_aux i s, (i : Int) < w := by
  induction s generalizing i with
  | nil => simp [parse_week_pattern_aux]
  | cons c cs ih =>
      intro w hw
      by_cases h : pyIsDigit c
      · rw [parse_week_pattern_aux, if_pos h] at hw
        rcases List.mem_cons.mp hw with h1 | h1
        · omega
        · have := ih (i + 1) w h1
          push_cast at this ⊢
          omega
      · rw [parse_week_pattern_aux, if_neg h] at hw
        have := ih (i + 1) w hw
        push_cast at this ⊢
        omega

theorem parse_week_pattern_aux_chain (i : Nat) (s : List Char) :
    (parse_week_pattern_aux i s).Chain' (· < ·) := by
  induction s generalizing i with
  | nil => simp [parse_week_pattern_aux]
  | cons c cs ih =>
      by_cases h : pyIsDigit c
      · rw [parse_week_pattern_aux, if_pos h]
        refine List.chain'_cons'.mpr ⟨?_, ih (i + 1)⟩
        intro b hb
        have hmem : b ∈ parse_week_pattern_aux (i + 1) cs :=
          List.mem_of_mem_head? hb
        have := parse_week_pattern_aux_lt (i + 1) cs b hmem
        push_cast at this ⊢
        omega
      · rw [parse_week_pattern_aux, if_neg h]
        exact ih (i + 1)

theorem parse_week_pattern_aux_length (i : Nat) (s : List Char) :
    (parse_week_pattern_aux i s).length = (s.filter pyIsDigit).length := by
  induction s generalizing i with
  | nil => simp [parse_week_pattern_aux]
  | cons c cs ih =>
      by_cases h : pyIsDigit c <;>
        simp [parse_week_pattern_aux, List.filter, h, ih]

/-- C3 counterexample: on the one-character pattern "²" (a Unicode
superscript digit), the program marks week 1 active, because Python's
`str.isdigit` accepts it, while the claimed 0-9 decimal-digit
characterization yields no active week at all. -/
theorem parse_week_pattern_counterexample :
    parse_week_pattern (("²").data) = [1] ∧
    (('²' : Char).isDigit) = false ∧
    ((List.enumFrom 0 (("²").data)).filter (fun p => p.2.isDigit)).map
        (fun p => (p.1 : Int) + 1) = [] := by decide

/-- C3 amended: `parse_week_pattern` returns exactly the strictly ascending
list of 1-based positions of the pattern whose character is accepted by
Python's Unicode-aware `str.isdigit` (not only 0-9: superscripts and other
Unicode digit characters also count, their value unused); its length is the
number of such characters, and a string with no such character (in
particular the empty string) yields the empty list. -/
theorem parse_week_pattern_amended (s : List Char) :
    parse_week_pattern s
        = ((List.enumFrom 0 s).filter (fun p => pyIsDigit p.2)).map
            (fun p => (p.1 : Int) + 1) ∧
    (parse_week_pattern s).Chain' (· < ·) ∧
    (parse_week_pattern s).length = (s.filter pyIsDigit).length ∧
    ((∀ c ∈ s, pyIsDigit c = false) → parse_week_pattern s = []) := by
  refine ⟨parse_week_pattern_aux_enum 0 s, parse_week_pattern_aux_chain 0 s,
    parse_week_pattern_aux_length 0 s, ?_⟩
  intro h
  have hfil : s.filter pyIsDigit = [] := by
    refine List.filter_eq_nil_iff.mpr ?_
    intro c hc
    simp [h c hc]
  have hlen := parse_week_pattern_aux_length 0 s
  rw [hfil] at hlen
  exact List.length_eq_zero.mp hlen

/-- Witness for the amended C3 at an all-inactive pattern. -/
theorem parse_week_pattern_amended_witness :
    parse_week_pattern (("--x-").data) = [] :=
  (parse_week_pattern_amended (("--x-").data)).2.2.2 (by decide)

/-- C1: on a non-empty strictly ascending week list, `get_dates_for_pattern`
returns one date per active week in order, the date of week `w` being the
weekday-adjusted anchor plus `w - first_week` weeks, where the first (hence
smallest) week maps to the adjusted anchor itself; the dates are strictly
increasing with consecutive differences that are multiples of 7 days, and an
empty week list yields the empty sequence. -/
theorem get_dates_for_pattern_spec (d dow w0 : Int) (ws : List Int)
    (hasc : List.Chain (· < ·) w0 ws) (h2 : 2 ≤ dow) (h8 : dow ≤ 8) :
    get_dates_for_pattern d dow (w0 :: ws)
        = (w0 :: ws).map (fun w => d + day_offset d dow + 7 * (w - w0)) ∧
    (∀ w ∈ w0 :: ws, w0 ≤ w) ∧
    (get_dates_for_pattern d dow (w0 :: ws)).Chain'
        (fun a b => a < b ∧ (7 : Int) ∣ b - a) ∧
    get_dates_for_pattern d dow [] = [] := by
  have hmap : get_dates_for_pattern d dow (w0 :: ws)
      = (w0 :: ws).map (fun w => d + day_offset d dow + 7 * (w - w0)) := rfl
  have hpw : (w0 :: ws).Pairwise (· < ·) := List.chain_iff_pairwise.mp hasc
  refine ⟨hmap, ?_, ?_, rfl⟩
  · intro w hw
    rcases List.mem_cons.mp hw with h1 | h1
    · omega
    · exact le_of_lt ((List.pairwise_cons.mp hpw).1 w h1)
  · rw [hmap, List.chain'_map]
    have hch : (w0 :: ws).Chain' (· < ·) := hasc
    refine hch.imp ?_
    intro a b hab
    exact ⟨by omega, ⟨b - a, by ring⟩⟩

/-- Witness for C1: anchor day 0 (a Monday), Tuesday code 3, weeks 1, 3, 6. -/
theorem get_dates_for_pattern_spec_witness :
    get_dates_for_pattern 0 3 [1, 3, 6]
        = ([1, 3, 6] : List Int).map
            (fun w => 0 + day_offset 0 3 + 7 * (w - 1)) ∧
    (∀ w ∈ ([1, 3, 6] : List Int), (1 : Int) ≤ w) ∧
    (get_dates_for_pattern 0 3 [1, 3, 6]).Chain'
        (fun a b => a < b ∧ (7 : Int) ∣ b - a) ∧
    get_dates_for_pattern 0 3 [] = [] :=
  get_dates_for_pattern_spec 0 3 1 [3, 6] (by norm_num [List.chain_cons])
    (by norm_num) (by norm_num)

/-- C2: for a weekday code in 2..8, the day offset computed inside
`get_dates_for_pattern` is `(day_of_week - weekday_code start) % 7`, lies in
0..6, the anchor's own code is its ISO weekday plus one (Sunday 7 ↦ 8), the
adjusted anchor falls on the requested weekday code, and the first projected
date of any non-empty week list is exactly the adjusted anchor. -/
theorem day_offset_spec (d dow : Int) (h2 : 2 ≤ dow) (h8 : dow ≤ 8) :
    weekday_code d = isoweekday d + 1 ∧
    day_offset d dow = (dow - weekday_code d) % 7 ∧
    0 ≤ day_offset d dow ∧ day_offset d dow ≤ 6 ∧
    weekday_code (d + day_offset d dow) = dow ∧
    (∀ w0 ws, (get_dates_for_pattern d dow (w0 :: ws)).head?
        = some (d + day_offset d dow)) := by
  have hd0 : 0 ≤ d % 7 := Int.emod_nonneg d (by norm_num)
  have hd7 : d % 7 < 7 := Int.emod_lt_of_pos d (by norm_num)
  refine ⟨?_, ?_, ?_, ?_, ?_, ?_⟩
  · simp only [weekday_code]
    split <;> omega
  · simp only [day_offset, weekday_code_eq]
    split <;> omega
  · simp only [day_offset, weekday_code_eq]
    split <;> omega
  · simp only [day_offset, weekday_code_eq]
    split <;> omega
  · rw [weekday_code_eq]
    simp only [day_offset, weekday_code_eq]
    split <;> omega
  · intro w0 ws
    simp only [get_dates_for_pattern, List.map_cons, List.head?_cons]
    congr 1
    omega

/-- Witness for C2 at anchor day 0 and weekday code 3. -/
theorem day_offset_spec_witness :
    weekday_code 0 = isoweekday 0 + 1 ∧
    day_offset 0 3 = (3 - weekday_code 0) % 7 ∧
    0 ≤ day_offset 0 3 ∧ day_offset 0 3 ≤ 6 ∧
    weekday_code (0 + day_offset 0 3) = 3 ∧
    (∀ w0 ws, (get_dates_for_pattern 0 3 (w0 :: ws)).head?
        = some (0 + day_offset 0 3)) :=
  day_offset_spec 0 3 (by norm_num) (by norm_num)

theorem get_dates_length (d dow : Int) (ws : List Int) :
    (get_dates_for_pattern d dow ws).length = ws.length := by
  cases ws <;> simp [get_dates_for_pattern]

theorem pdConcat_none_left (b : Cell) : pdConcat none b = none := rfl

theorem pdConcat_none_right (a : Cell) : pdConcat a none = none := by
  cases a <;> rfl

theorem pyGet_eq_none_of {α : Type} (l : List α) (i : Int)
    (h : (l.length : Int) ≤ i ∨ (l.length : Int) + i < 0) :
    pyGet l i = none := by
  simp only [pyGet]
  by_cases hi : i < 0
  · rw [if_pos hi, if_neg (by omega)]
  · rw [if_neg hi, if_pos (by omega)]
    exact List.get?_eq_none.mpr (by omega)

theorem pyGet_in_range {α : Type} (l : List α) (i : Int) (h0 : 0 ≤ i)
    (hlt : i < (l.length : Int)) : ∃ a, pyGet l i = some a := by
  have hn : i.toNat < l.length := by omega
  refine ⟨l.get ⟨i.toNat, hn⟩, ?_⟩
  simp only [pyGet]
  rw [if_neg (show ¬ i < 0 by omega), if_pos h0]
  exact List.get?_eq_get hn

/-- C4 counterexample: a batch consisting of one digit-free record expands
to zero occurrence rows, but the build then fails — the empty expanded frame
has no title column, so the classification raises `KeyError` — instead of
producing zero calendar events without error. -/
theorem empty_expansion_counterexample :
    expandRecord recNoDigit = [] ∧
    pipelineEvents 0 [recNoDigit] = none ∧
    pipelineEvents 0 [recNoDigit] ≠ some [] := by decide

/-- C4 amended: expansion emits exactly one occurrence row per active week,
each retaining every descriptive field of the record together with its
concrete date; a record whose pattern has no digit yields zero occurrence
rows and, inside a batch, contributes zero calendar events and no error of
its own — but when the whole batch expands to zero rows, the expanded frame
has no title column and the classification step fails with `KeyError`
instead of yielding an empty output. -/
theorem expandRecord_amended (r : ScheduleRecord) (rs : List ScheduleRecord)
    (today : Int) :
    (expandRecord r).length = (parse_week_pattern r.tuanHoc).length ∧
    (∀ o ∈ expandRecord r,
      o.stt = r.stt ∧ o.maLop = r.maLop ∧ o.nhom = r.nhom ∧ o.lop = r.lop ∧
      o.tenMonHoc = r.tenMonHoc ∧ o.siSo = r.siSo ∧ o.thu = r.thu ∧
      o.tuTiet = r.tuTiet ∧ o.denTiet = r.denTiet ∧ o.tietHoc = r.tietHoc ∧
      o.tenPhong = r.tenPhong ∧
      o.ngay ∈ get_dates_for_pattern r.ngayBatDau r.thu
          (parse_week_pattern r.tuanHoc)) ∧
    (parse_week_pattern r.tuanHoc = [] →
      expandRecord r = [] ∧
      pipelineEvents today (r :: rs) = pipelineEvents today rs) ∧
    (expandAll (r :: rs) = [] → pipelineEvents today (r :: rs) = none) := by
  refine ⟨?_, ?_, ?_, ?_⟩
  · simp [expandRecord, get_dates_length]
  · intro o ho
    simp only [expandRecord, List.mem_map] at ho
    obtain ⟨dte, hd, rfl⟩ := ho
    exact ⟨rfl, rfl, rfl, rfl, rfl, rfl, rfl, rfl, rfl, rfl, rfl, hd⟩
  · intro h
    have he : expandRecord r = [] := by
      simp [expandRecord, h, get_dates_for_pattern]
    have hexp : expandAll (r :: rs) = expandAll rs := by
      simp [expandAll, he]
    refine ⟨he, ?_⟩
    unfold pipelineEvents
    rw [hexp]
  · intro h0
    unfold pipelineEvents
    rw [h0]

/-- Witness for the amended C4: a digit-free record contributes nothing to
its batch, and the all-digit-free batch aborts with the frame-level error. -/
theorem expandRecord_amended_witness :
    (expandRecord recNoDigit = [] ∧
      pipelineEvents 0 [recNoDigit] = pipelineEvents 0 []) ∧
    pipelineEvents 0 [recNoDigit] = none :=
  ⟨(expandRecord_amended recNoDigit [] 0).2.2.1 (by decide),
   (expandRecord_amended recNoDigit [] 0).2.2.2 (by decide)⟩

/-- C5: a row is classified as practice exactly when its course title
contains one of the two marker substrings, otherwise as lecture; every
occurrence expanded from a record inherits the record's classification, and
the classification selects which timetable both period lookups use. -/
theorem isPractice_spec (t : Cell) (r : ScheduleRecord) :
    (isPractice t = 1 ↔
      (cellContains t marker1 = true ∨ cellContains t marker2 = true)) ∧
    (isPractice t = 0 ↔
      (cellContains t marker1 = false ∧ cellContains t marker2 = false)) ∧
    (∀ o ∈ expandRecord r, isPractice o.tenMonHoc = isPractice r.tenMonHoc) ∧
    (∀ o : Occurrence, isPractice o.tenMonHoc = 1 →
      startLookup o = pyGet practice_array (o.tuTiet - 1) ∧
      endLookup o = pyGet practice_array (o.denTiet - 1)) ∧
    (∀ o : Occurrence, isPractice o.tenMonHoc = 0 →
      startLookup o = pyGet lecture_array (o.tuTiet - 1) ∧
      endLookup o = pyGet lecture_array (o.denTiet - 1)) := by
  refine ⟨?_, ?_, ?_, ?_, ?_⟩
  · simp only [isPractice]
    cases h1 : cellContains t marker1 <;> cases h2 : cellContains t marker2 <;>
      norm_num
  · simp only [isPractice]
    cases h1 : cellContains t marker1 <;> cases h2 : cellContains t marker2 <;>
      norm_num
  · intro o ho
    simp only [expandRecord, List.mem_map] at ho
    obtain ⟨dte, hd, rfl⟩ := ho
    rfl
  · intro o h
    rw [startLookup, endLookup, if_pos h]
    exact ⟨rfl, rfl⟩
  · intro o h
    rw [startLookup, endLookup,
      if_neg (show ¬ isPractice o.tenMonHoc = 1 by omega)]
    exact ⟨rfl, rfl⟩

/-- Witness for C5 at a practicum occurrence. -/
theorem isPractice_spec_witness :
    startLookup occThucHanh = pyGet practice_array (occThucHanh.tuTiet - 1) ∧
    endLookup occThucHanh = pyGet practice_array (occThucHanh.denTiet - 1) :=
  (isPractice_spec occThucHanh.tenMonHoc recNoDigit).2.2.2.1 occThucHanh
    (by decide)

/-- C10: a missing (NaN) course title is a non-match for both markers
(`na=False`), so the row is classified as lecture and both its period lookups
use the lecture timetable; classification raises no error. -/
theorem missing_title_spec (o : Occurrence) (h : o.tenMonHoc = none) :
    cellContains o.tenMonHoc marker1 = false ∧
    cellContains o.tenMonHoc marker2 = false ∧
    isPractice o.tenMonHoc = 0 ∧
    startLookup o = pyGet lecture_array (o.tuTiet - 1) ∧
    endLookup o = pyGet lecture_array (o.denTiet - 1) := by
  rw [startLookup, endLookup, h]
  refine ⟨rfl, rfl, rfl, ?_, ?_⟩ <;>
    rw [if_neg (show ¬ isPractice (none : Cell) = 1 by decide)]

/-- Witness for C10 at an occurrence with a missing title. -/
theorem missing_title_spec_witness :
    cellContains occNoTitle.tenMonHoc marker1 = false ∧
    cellContains occNoTitle.tenMonHoc marker2 = false ∧
    isPractice occNoTitle.tenMonHoc = 0 ∧
    startLookup occNoTitle = pyGet lecture_array (occNoTitle.tuTiet - 1) ∧
    endLookup occNoTitle = pyGet lecture_array (occNoTitle.denTiet - 1) :=
  missing_title_spec occNoTitle rfl

/-- C6 counterexample: period 0 lies outside 1..17, yet both timetable
lookups silently return the last slot of the day through Python's negative
indexing instead of failing. -/
theorem period_lookup_counterexample :
    pyGet lecture_array ((0 : Int) - 1) = some (("21:00"), ("21:45")) ∧
    pyGet practice_array ((0 : Int) - 1) = some (("21:00"), ("21:45")) ∧
    ¬ (1 ≤ (0 : Int) ∧ (0 : Int) ≤ 17) := by decide

/-- C6 amended: a period index at least 18 or at most -17 makes both
timetable lookups fail with an out-of-range condition; indices -16..0,
although outside 1..17, are silently wrapped by Python's negative indexing
and return a slot time. -/
theorem period_lookup_out_of_range (p : Int) (h : 18 ≤ p ∨ p ≤ -17) :
    pyGet lecture_array (p - 1) = none ∧
    pyGet practice_array (p - 1) = none := by
  have h1 : lecture_array.length = 17 := rfl
  have h2 : practice_array.length = 17 := rfl
  exact ⟨pyGet_eq_none_of _ _ (by rw [h1]; push_cast; omega),
    pyGet_eq_none_of _ _ (by rw [h2]; push_cast; omega)⟩

/-- Witness for the amended C6 at period 18. -/
theorem period_lookup_out_of_range_witness :
    pyGet lecture_array ((18 : Int) - 1) = none ∧
    pyGet practice_array ((18 : Int) - 1) = none :=
  period_lookup_out_of_range 18 (Or.inl (by norm_num))

/-- C7: the future-only filter keeps exactly the events whose start date is
on or after the current date: an event dated strictly earlier is absent, and
an event dated exactly today is kept. -/
theorem future_filter_spec (today : Int) (events : List CalendarEvent)
    (e : CalendarEvent) :
    (e ∈ futureFilter today events ↔ e ∈ events ∧ today ≤ e.startDate) ∧
    (e.startDate < today → e ∉ futureFilter today events) ∧
    (e ∈ events → e.startDate = today → e ∈ futureFilter today events) := by
  have hmem : e ∈ futureFilter today events ↔
      e ∈ events ∧ today ≤ e.startDate := by
    simp [futureFilter, List.mem_filter]
  refine ⟨hmem, ?_, ?_⟩
  · intro hlt hcon
    have := (hmem.mp hcon).2
    omega
  · intro hin heq
    exact hmem.mpr ⟨hin, by omega⟩

/-- Witness for C7: an event dated exactly today survives the filter. -/
theorem future_filter_spec_witness : evEx ∈ futureFilter 0 [evEx] :=
  (future_filter_spec 0 [evEx] evEx).2.2 (by simp) rfl

/-- C8 counterexample: an occurrence whose section-code cell is missing
builds without error, but its Subject column carries the literal string
"nan" where the absent field sits — not an empty string. -/
theorem missing_field_counterexample :
    (buildEventRow occNoCode).map (fun e => renderCell e.subject)
        = some ("T - nan - L") ∧
    occNoCode.maLop = none ∧
    ("T - nan - L" : String) ≠ ("T -  - L") ∧
    ("T - nan - L" : String) ≠ ("") := by decide

/-- C8 amended: with valid period indices the build never aborts. A blank
("") room cell propagates as the empty string; a missing (NaN) room, title,
or class cell makes each output column that concatenates it render as a
wholly empty cell (pandas NaN absorption), while a missing section code is
stringified by `astype(str)` and appears as the literal "nan" inside the
Subject column. -/
theorem missing_field_amended (o : Occurrence)
    (h1 : 1 ≤ o.tuTiet) (h2 : o.tuTiet ≤ 17)
    (h3 : 1 ≤ o.denTiet) (h4 : o.denTiet ≤ 17) :
    ∃ e, buildEventRow o = some e ∧
      e.location = o.tenPhong ∧
      (o.tenPhong = some ("") → renderCell e.location = ("")) ∧
      (o.tenPhong = none →
        renderCell e.location = ("") ∧ renderCell e.description = ("")) ∧
      (o.tenMonHoc = none →
        renderCell e.subject = ("") ∧ renderCell e.description = ("")) ∧
      (∀ t l, o.maLop = none → o.tenMonHoc = some t → o.lop = some l →
        e.subject = some (t ++ " - nan - " ++ l)) := by
  have hlen : (if isPractice o.tenMonHoc = 1 then practice_array
      else lecture_array).length = 17 := by split <;> rfl
  obtain ⟨st, hst⟩ := pyGet_in_range
    (if isPractice o.tenMonHoc = 1 then practice_array else lecture_array)
    (o.tuTiet - 1) (by omega) (by rw [hlen]; push_cast; omega)
  obtain ⟨en, hen⟩ := pyGet_in_range
    (if isPractice o.tenMonHoc = 1 then practice_array else lecture_array)
    (o.denTiet - 1) (by omega) (by rw [hlen]; push_cast; omega)
  have hst' : startLookup o = some st := hst
  have hen' : endLookup o = some en := hen
  refine ⟨mkEvent o st en, ?_, rfl, ?_, ?_, ?_, ?_⟩
  · simp only [buildEventRow, hst', hen']
  · intro h
    simp [mkEvent, renderCell, h]
  · intro h
    exact ⟨by simp [mkEvent, renderCell, h],
      by simp [mkEvent, renderCell, h, pdConcat_none_left]⟩
  · intro h
    refine ⟨by simp [mkEvent, renderCell, h, pdConcat_none_left], ?_⟩
    simp [mkEvent, renderCell, h, pdConcat_none_left, pdConcat_none_right]
  · intro t l hm ht hl
    have hcat : t ++ (" - " ++ ("nan" ++ (" - " ++ l)))
        = t ++ " - nan - " ++ l := by
      rw [String.append_assoc]
      congr 1
    simp only [mkEvent, hm, ht, hl, astype_str, pdConcat]
    rw [hcat]

/-- Witness for the amended C8 at a concrete occurrence with valid periods. -/
theorem missing_field_amended_witness :
    ∃ e, buildEventRow occThucHanh = some e ∧
      e.location = occThucHanh.tenPhong ∧
      (occThucHanh.tenPhong = some ("") →
        renderCell e.location = ("")) ∧
      (occThucHanh.tenPhong = none →
        renderCell e.location = ("") ∧ renderCell e.description = ("")) ∧
      (occThucHanh.tenMonHoc = none →
        renderCell e.subject = ("") ∧ renderCell e.description = ("")) ∧
      (∀ t l, occThucHanh.maLop = none → occThucHanh.tenMonHoc = some t →
        occThucHanh.lop = some l →
        e.subject = some (t ++ " - nan - " ++ l)) :=
  missing_field_amended occThucHanh (by decide) (by decide) (by decide)
    (by decide)

/-- C9: both timetables define exactly 17 slots of exactly 45 minutes; the
lecture table has a 25-minute gap after slots 3 and 9, the practice table is
back-to-back inside each of its three blocks, and the two tables diverge at
period 4, whose lecture start time is "09:40" but whose practice start time
is "09:15". -/
theorem timetable_spec :
    lecture_array.length = 17 ∧ practice_array.length = 17 ∧
    (lecture_array.all (fun s => decide (timeToMin s.2 - timeToMin s.1 = 45))
      = true) ∧
    (practice_array.all (fun s => decide (timeToMin s.2 - timeToMin s.1 = 45))
      = true) ∧
    slotGap lecture_array 2 = 25 ∧ slotGap lecture_array 8 = 25 ∧
    ((List.range 16).all (fun i =>
        decide (i = 5) || decide (i = 11) ||
          decide (slotGap practice_array i = 0)) = true) ∧
    (pyGet lecture_array (4 - 1)).map Prod.fst = some ("09:40") ∧
    (pyGet practice_array (4 - 1)).map Prod.fst = some ("09:15") := by
  decide

end App
